import Mathlib

/-!
Verification development for the interactive UI utilities of the
timcchang.com repository.  The repository's interactive code lives in the
blog posts themselves (MDX code blocks) and in a small SEO component:

* `useGoogleAutocomplete` — a debounced remote-lookup hook
  (src/content/posts/first-open-source-project/index.mdx);
* the accessible `Modal` higher-ordered component
  (src/content/posts/building-an-accessible-modal-using-hooks-and-higher-ordered-components/index.mdx);
* the `scroll`/`animate` smooth-scroll animator
  (src/content/posts/how-to-make-scrollto-work-across-browsers/index.mdx);
* the `SEO` component (src/src/components/shared/seo.tsx).

Pure functions are embedded directly; the hooks' event-driven behaviour
(debounced timers, in-flight fetches, interval timers, React render / effect /
cleanup sequencing) is embedded as explicit step functions on state records.
-/

namespace Autocomplete

/-- Reducer state of `useGoogleAutocomplete`: `initialState` in the source is
`\x7b results: [], isLoading: false, error: null \x7d`. -/
structure AcState (α : Type) where
  results : List α
  isLoading : Bool
  error : Option String
  deriving Repr, DecidableEq

/-- `initialState` from the source. -/
def initialState (α : Type) : AcState α := ⟨[], false, none⟩

/-- The `payload` object the hook dispatches with a response:
`payload: \x7b data \x7d` where `data` is the parsed response.  We abstract the
response body to its list of predictions. -/
structure AcPayload (α : Type) where
  data : List α
  deriving Repr, DecidableEq

/-- An action `\x7b type: string, payload?: any \x7d`.  The `LOADING` dispatch in
the source carries no payload; response dispatches carry `payload: \x7b data \x7d`. -/
structure AcAction (α : Type) where
  type : String
  payload : Option (AcPayload α)
  deriving Repr, DecidableEq

/-- The hook's reducer, case for case from the source.  All cases beside
`LOADING` are status codes of the remote API's response.  In the `OK` case the
source reads `action.payload.data`; the hook only ever dispatches `OK`
together with a payload (reading `.data` of an absent payload would throw in
JS), so the absent-payload branch is never exercised; it is modelled as
keeping the previous `results`. -/
def reducer (state : AcState α) (action : AcAction α) : AcState α :=
  match action.type with
  | "LOADING" => { state with isLoading := true }
  | "OK" =>
      { state with
        results := (action.payload.map AcPayload.data).getD state.results
        isLoading := false
        error := none }
  | "ZERO_RESULTS" => { state with results := [], isLoading := false, error := none }
  | "INVALID_REQUEST" => { state with isLoading := false, error := none }
  | "REQUEST_DENIED" =>
      { state with isLoading := false, error := some "Invalid \x27key\x27 parameter" }
  | "UNKNOWN_ERROR" =>
      { state with isLoading := false, error := some "Unknown error, refresh and try again." }
  | _ => state

/-- Helper: on an action whose `type` is none of the six handled strings the
reducer falls through to `default: return state`. -/
theorem reducer_unhandled (state : AcState α) (action : AcAction α)
    (h1 : action.type ≠ "LOADING") (h2 : action.type ≠ "OK")
    (h3 : action.type ≠ "ZERO_RESULTS") (h4 : action.type ≠ "INVALID_REQUEST")
    (h5 : action.type ≠ "REQUEST_DENIED") (h6 : action.type ≠ "UNKNOWN_ERROR") :
    reducer state action = state := by
  unfold reducer
  split <;> simp_all

/-- Claim C3, counterexample.  The claim asserts that "every failure leaves
the hook in a no-results/empty UI state".  The failure branches of the reducer
spread `...state` and do not clear `results`: dispatching `REQUEST_DENIED` on
a state whose `results` is `[0]` leaves `results = [0]`, not an empty list. -/
theorem C3_claim_counterexample :
    (reducer ⟨[0], true, none⟩ ⟨"REQUEST_DENIED", none⟩).results = [0] ∧
      ([0] : List Nat) ≠ [] := by
  constructor
  · rfl
  · simp

/-- Claim C3 (amended): on success (`OK`) results are replaced by the payload
data and the error is cleared; on `ZERO_RESULTS` results are cleared with no
error; on `REQUEST_DENIED` and `UNKNOWN_ERROR` a distinct user-facing error
string is set per status; and every failure branch only clears `isLoading`
and sets (or clears) the error string, leaving `results` at its prior value —
so starting from the empty initial state every failure leaves an empty-results
UI state, and no failure branch retries or diverges into a fatal path. -/
theorem C3_amended_thm (s : AcState α) (p : AcPayload α) (x : Option (AcPayload α)) :
    reducer s ⟨"OK", some p⟩ = ⟨p.data, false, none⟩ ∧
    reducer s ⟨"ZERO_RESULTS", x⟩ = ⟨[], false, none⟩ ∧
    reducer s ⟨"INVALID_REQUEST", x⟩ = ⟨s.results, false, none⟩ ∧
    reducer s ⟨"REQUEST_DENIED", x⟩
      = ⟨s.results, false, some "Invalid \x27key\x27 parameter"⟩ ∧
    reducer s ⟨"UNKNOWN_ERROR", x⟩
      = ⟨s.results, false, some "Unknown error, refresh and try again."⟩ ∧
    ("Invalid \x27key\x27 parameter" : String) ≠ "Unknown error, refresh and try again." := by
  refine ⟨rfl, rfl, rfl, rfl, rfl, by simp⟩

/-- Claim C9: for every state and every action whose `type` is none of the six
handled strings, the reducer's `default` case returns the input state
unchanged; consequently a response bearing an unrecognized status leaves
`results` and `error` untouched and leaves `isLoading` at its prior value —
in particular still `true` when a `LOADING` dispatch preceded it. -/
theorem C9_reducer_default_thm (s : AcState α) (a : AcAction α)
    (h1 : a.type ≠ "LOADING") (h2 : a.type ≠ "OK")
    (h3 : a.type ≠ "ZERO_RESULTS") (h4 : a.type ≠ "INVALID_REQUEST")
    (h5 : a.type ≠ "REQUEST_DENIED") (h6 : a.type ≠ "UNKNOWN_ERROR") :
    reducer s a = s ∧ reducer (reducer s ⟨"LOADING", none⟩) a = ⟨s.results, true, s.error⟩ := by
  constructor
  · exact reducer_unhandled s a h1 h2 h3 h4 h5 h6
  · rw [reducer_unhandled _ a h1 h2 h3 h4 h5 h6]
    rfl

/-- Witness for C9 at a concrete unrecognized status. -/
theorem C9_reducer_default_witness :
    reducer (⟨[5], false, none⟩ : AcState Nat) ⟨"OVER_QUERY_LIMIT", none⟩ = ⟨[5], false, none⟩ ∧
      reducer (reducer (⟨[5], false, none⟩ : AcState Nat) ⟨"LOADING", none⟩)
        ⟨"OVER_QUERY_LIMIT", none⟩ = ⟨[5], true, none⟩ :=
  C9_reducer_default_thm ⟨[5], false, none⟩ ⟨"OVER_QUERY_LIMIT", none⟩
    (by decide) (by decide) (by decide) (by decide) (by decide) (by decide)

/-- A debounced call armed by the query effect: `debouncedFn.current` holds a
closure over the current `query` whose `setTimeout` deadline is the time of
the effect run plus the 400ms wait. `gen` numbers the query-effect run
(query generation) that armed it. -/
structure Pending where
  deadline : Nat
  query : String
  gen : Nat
  deriving Repr, DecidableEq

/-- An autocomplete fetch that has been issued, tagged with the query
generation that issued it. -/
structure Request where
  gen : Nat
  query : String
  deriving Repr, DecidableEq

/-- The full observable state of one mounted `useGoogleAutocomplete` instance
together with the browser facilities it uses (clock, timers, in-flight
fetches).  `sessionToken` models `sessionToken.current`: `uuid4()` is
abstracted as a counter whose increments are fresh values.  `nextTokenReset`
is the next due time of the `setInterval(resetSessionToken, 180000)` timer.
`detailInflight` counts outstanding `getPlaceDetails` fetches.  `fetchLog`
records every autocomplete request ever issued (for counting network calls). -/
structure HookState (α : Type) where
  mounted : Bool
  now : Nat
  initialRenderDone : Bool
  state : AcState α
  pending : Option Pending
  inflight : List Request
  fetchLog : List Request
  gen : Nat
  sessionToken : Nat
  nextTokenReset : Nat
  detailInflight : Nat
  deriving Repr, DecidableEq

/-- The hook state right after mount at time 0: the mount effect has armed the
session-token interval and the AbortController; the query effect has not yet
run (`initialRender.current === false`). -/
def mountState (α : Type) : HookState α :=
  ⟨true, 0, false, initialState α, none, [], [], 0, 0, 180000, 0⟩

/-- The asynchronous events that drive the hook:
* `effectRun q` — the query effect runs (the `query` prop changed to `q`);
* `advanceTo t` — the clock reaches `t`; a due debounce timeout fires;
* `response g status data` — the in-flight autocomplete fetch of generation
  `g` resolves with the given response status and data;
* `intervalTick` — the 180000ms session-token interval fires;
* `detailRequest` / `detailComplete` — a `getPlaceDetails` fetch is issued /
  resolves successfully;
* `unmount` — the component unmounts (cleanup: `clearInterval` and
  `abortController.current.abort()`). -/
inductive HookEvent (α : Type) where
  | effectRun (q : String)
  | advanceTo (t : Nat)
  | response (g : Nat) (status : String) (data : List α)
  | intervalTick
  | detailRequest
  | detailComplete
  | unmount
  deriving Repr, DecidableEq

/-- `resetSessionToken`: `sessionToken.current = uuid4()` — a fresh value. -/
def resetSessionToken (s : HookState α) : HookState α :=
  { s with sessionToken := s.sessionToken + 1 }

/-- One step of the hook.  Each branch mirrors the source:

* `effectRun`: the query effect first returns early on the initial render
  (`initialRender` flag); otherwise it clears the previous debounced call
  (`debouncedFn.current.clear()`), dispatches `LOADING` unless already
  loading, and arms and invokes a fresh `debounce(.., 400)` closure over the
  new query.
* `advanceTo`: when the armed timeout's deadline is due, the debounced
  function body runs: it issues `fetch(url, \x7b signal \x7d)` for the armed query.
  After unmount the abort signal has already fired, so the fetch rejects at
  once and never reaches the network (nothing is issued or dispatched).
* `response`: `.then(data => dispatch(\x7b type: data.status, payload: \x7b data \x7d \x7d))`.
  There is no generation check: any in-flight response that resolves while
  mounted is dispatched.  After unmount the abort rejection lands in the
  `.catch` and nothing is dispatched.
* `intervalTick`: `setInterval(resetSessionToken, 180000)` — fires only while
  mounted (cleanup runs `clearInterval`).
* `detailRequest` / `detailComplete`: `getPlaceDetails` issues a detail fetch;
  on successful resolution its `.then` calls `resetSessionToken()`.
* `unmount`: `clearInterval` plus `abortController.current.abort()`, which
  cancels every in-flight fetch. -/
def step (s : HookState α) : HookEvent α → HookState α
  | .effectRun q =>
      if s.mounted then
        if s.initialRenderDone then
          let s1 := { s with pending := none }
          let s2 :=
            if s1.state.isLoading then s1
            else { s1 with state := reducer s1.state ⟨"LOADING", none⟩ }
          { s2 with gen := s2.gen + 1, pending := some ⟨s2.now + 400, q, s2.gen + 1⟩ }
        else { s with initialRenderDone := true }
      else s
  | .advanceTo t =>
      if t < s.now then s
      else
        let s1 := { s with now := t }
        match s.pending with
        | some p =>
            if p.deadline ≤ t then
              if s.mounted then
                { s1 with
                  pending := none
                  inflight := s1.inflight ++ [⟨p.gen, p.query⟩]
                  fetchLog := s1.fetchLog ++ [⟨p.gen, p.query⟩] }
              else { s1 with pending := none }
            else s1
        | none => s1
  | .response g _status data =>
      if (s.inflight.filter fun r => r.gen = g).isEmpty then s
      else
        let s1 := { s with inflight := s.inflight.filter fun r => r.gen ≠ g }
        if s.mounted then { s1 with state := reducer s1.state ⟨_status, some ⟨data⟩⟩ }
        else s1
  | .intervalTick =>
      if s.mounted ∧ s.nextTokenReset ≤ s.now then
        { resetSessionToken s with nextTokenReset := s.nextTokenReset + 180000 }
      else s
  | .detailRequest =>
      if s.mounted then { s with detailInflight := s.detailInflight + 1 } else s
  | .detailComplete =>
      if s.mounted ∧ 0 < s.detailInflight then
        { resetSessionToken s with detailInflight := s.detailInflight - 1 }
      else s
  | .unmount =>
      if s.mounted then { s with mounted := false, inflight := [] } else s

/-- Which events can actually occur in a given state (the scheduler's guards:
effects and timers only fire while mounted, the interval only when due, a
response only for a request that is actually in flight, time never goes
backwards). -/
def validEvent (s : HookState α) : HookEvent α → Prop
  | .effectRun _ => s.mounted = true
  | .advanceTo t => s.now ≤ t
  | .response g _ _ => ∃ r ∈ s.inflight, r.gen = g
  | .intervalTick => s.mounted = true ∧ s.nextTokenReset ≤ s.now
  | .detailRequest => s.mounted = true
  | .detailComplete => s.mounted = true ∧ 0 < s.detailInflight
  | .unmount => s.mounted = true

/-- Running a list of events. -/
def run (s : HookState α) (es : List (HookEvent α)) : HookState α :=
  es.foldl step s

/-- Helper: no event other than the interval tick and a detail-lookup
completion touches `sessionToken.current`. -/
theorem step_token_eq (s : HookState α) (e : HookEvent α)
    (h1 : e ≠ .intervalTick) (h2 : e ≠ .detailComplete) :
    (step s e).sessionToken = s.sessionToken := by
  cases e <;>
    simp only [step] <;>
    (repeat' split) <;>
    simp_all

/-- Helper: a due interval tick runs `resetSessionToken`. -/
theorem step_token_tick (s : HookState α) (h : validEvent s (.intervalTick : HookEvent α)) :
    (step s (.intervalTick : HookEvent α)).sessionToken = s.sessionToken + 1 := by
  simp only [validEvent] at h
  simp only [step, resetSessionToken, if_pos h]

/-- Helper: a successful detail-lookup completion runs `resetSessionToken`. -/
theorem step_token_detail (s : HookState α)
    (h : validEvent s (.detailComplete : HookEvent α)) :
    (step s (.detailComplete : HookEvent α)).sessionToken = s.sessionToken + 1 := by
  simp only [validEvent] at h
  simp only [step, resetSessionToken, if_pos h]

/-- Claim C8: across every event that can occur, the session token changes
exactly at the two kinds of events the claim names — the 180000ms interval
timer firing and the successful completion of a place-detail lookup — and at
any other event it is unchanged; when it does change it is replaced by a
fresh value (the uuid counter's successor). -/
theorem C8_session_token_thm (s : HookState α) (e : HookEvent α) (h : validEvent s e) :
    ((step s e).sessionToken ≠ s.sessionToken ↔
      (e = .intervalTick ∨ e = .detailComplete)) ∧
    ((step s e).sessionToken ≠ s.sessionToken →
      (step s e).sessionToken = s.sessionToken + 1) := by
  by_cases ht : e = .intervalTick
  · subst ht
    rw [step_token_tick s h]
    exact ⟨⟨fun _ => Or.inl rfl, fun _ => Nat.succ_ne_self _⟩, fun _ => rfl⟩
  · by_cases hd : e = .detailComplete
    · subst hd
      rw [step_token_detail s h]
      exact ⟨⟨fun _ => Or.inr rfl, fun _ => Nat.succ_ne_self _⟩, fun _ => rfl⟩
    · rw [step_token_eq s e ht hd]
      refine ⟨⟨fun hne => absurd rfl hne, fun hor => ?_⟩, fun hne => absurd rfl hne⟩
      rcases hor with rfl | rfl
      · exact absurd rfl ht
      · exact absurd rfl hd

/-- Witness for C8: a mounted state whose interval timer is due; the tick
changes the token, and to the fresh successor, as the theorem states. -/
theorem C8_session_token_witness :
    (step (⟨true, 180000, true, ⟨[], false, none⟩, none, [], [], 0, 0, 180000, 0⟩ :
        HookState Nat) .intervalTick).sessionToken ≠ 0 ∧
      (step (⟨true, 180000, true, ⟨[], false, none⟩, none, [], [], 0, 0, 180000, 0⟩ :
        HookState Nat) .intervalTick).sessionToken = 0 + 1 := by
  have h := C8_session_token_thm
    (⟨true, 180000, true, ⟨[], false, none⟩, none, [], [], 0, 0, 180000, 0⟩ : HookState Nat)
    .intervalTick ⟨rfl, Nat.le_refl _⟩
  exact ⟨h.1.mpr (Or.inl rfl), h.2 (h.1.mpr (Or.inl rfl))⟩

/-- A concrete execution in which a request of an older query generation
resolves after a newer query has started (and after the newer request's
response has already committed): mount; query "a" at t=10; its debounce fires
at t=410 and issues request generation 1; query "ab" at t=500 (generation 2)
while the generation-1 request is still in flight; the generation-2 request
is issued at t=900; its response (data `[22]`) commits; then the stale
generation-1 response (data `[11]`) arrives. -/
def staleTrace : List (HookEvent Nat) :=
  [ .effectRun "",
    .advanceTo 10, .effectRun "a",
    .advanceTo 410,
    .advanceTo 500, .effectRun "ab",
    .advanceTo 900,
    .response 2 "OK" [22],
    .response 1 "OK" [11] ]

/-- Claim C1, counterexample.  The claim asserts that a superseded in-flight
response never commits to state after a newer query has started.  In the
code the AbortController only fires on unmount and responses carry no
generation token, so in `staleTrace` the stale generation-1 response commits
last: the final `results` is the stale payload `[11]`, overwriting the newer
query's committed `[22]`. -/
theorem C1_claim_counterexample :
    (run (mountState Nat) staleTrace).state.results = [11] ∧
      (run (mountState Nat) staleTrace).fetchLog =
        [⟨1, "a"⟩, ⟨2, "ab"⟩] ∧
      ([11] : List Nat) ≠ [22] := by
  refine ⟨rfl, rfl, by simp⟩

/-- Claim C1 (amended): the hook performs no generation check and cancels
in-flight requests only on unmount.  While the hook is mounted, the response
of ANY request that is still in flight — in particular one issued for an
older query generation than the current one — commits to state through the
reducer when it arrives (last write wins in arrival order); after unmount the
abort rejection is swallowed and no response commits. -/
theorem C1_amended_thm (s : HookState α) (g : Nat) (status : String) (data : List α)
    (hin : ∃ r ∈ s.inflight, r.gen = g) :
    (step s (.response g status data)).state =
      (if s.mounted then reducer s.state ⟨status, some ⟨data⟩⟩ else s.state) := by
  have hne : (s.inflight.filter fun r => r.gen = g).isEmpty = false := by
    rcases hin with ⟨r, hr, hg⟩
    simp [List.isEmpty_iff, List.filter_eq_nil_iff]
    exact ⟨r, hr, hg⟩
  simp only [step, hne, Bool.false_eq_true, if_false]
  split <;> rfl

/-- Witness for C1 (amended) at a mounted state whose only in-flight request
(generation 1) is three generations behind the current query generation: its
response still commits through the reducer. -/
theorem C1_amended_witness :
    (step (⟨true, 950, true, ⟨[], true, none⟩, none, [⟨1, "a"⟩], [⟨1, "a"⟩], 4, 0,
        180000, 0⟩ : HookState Nat) (.response 1 "OK" [7])).state =
      (if true then
        reducer (⟨[], true, none⟩ : AcState Nat) ⟨"OK", some ⟨[7]⟩⟩
      else ⟨[], true, none⟩) :=
  C1_amended_thm _ 1 "OK" [7] ⟨⟨1, "a"⟩, by simp, rfl⟩

/-- Bool test that a sequence of timed query-prop updates stays inside one
debounce window: starting from a previous update time, each update happens no
earlier than the previous one and strictly less than 400ms after it. -/
def withinWindow : Nat → List (Nat × String) → Bool
  | _, [] => true
  | prev, (t, _) :: rest =>
      decide (prev ≤ t) && decide (t < prev + 400) && withinWindow t rest

/-- The last element of the nonempty update sequence `p :: us`. -/
def lastUpd (p : Nat × String) : List (Nat × String) → Nat × String
  | [] => p
  | q :: rest => lastUpd q rest

/-- Processing a sequence of timed query-prop updates: for each update the
clock advances to its time and then the query effect runs with the new query. -/
def processUpdates (s : HookState α) (us : List (Nat × String)) : HookState α :=
  us.foldl (fun s tq => step (step s (.advanceTo tq.1)) (.effectRun tq.2)) s

/-- Helper: advancing the clock with no armed debounce timeout only moves
the clock. -/
theorem advance_noPending (s : HookState α) (t : Nat)
    (hnow : s.now ≤ t) (hp : s.pending = none) :
    step s (.advanceTo t) = { s with now := t } := by
  simp only [step, Nat.not_lt.mpr hnow, if_false, hp]

/-- Helper: advancing the clock to a time before the armed timeout's deadline
only moves the clock (the debounced call does not fire yet). -/
theorem advance_beforeDeadline (s : HookState α) (t d : Nat) (q : String) (g : Nat)
    (hnow : s.now ≤ t) (hp : s.pending = some ⟨d, q, g⟩) (hlt : t < d) :
    step s (.advanceTo t) = { s with now := t } := by
  simp only [step, Nat.not_lt.mpr hnow, if_false, hp, Nat.not_le.mpr hlt]

/-- Helper: advancing the clock past the armed timeout's deadline fires the
debounced call, which issues exactly one fetch for the armed query. -/
theorem advance_fire (s : HookState α) (t d : Nat) (q : String) (g : Nat)
    (hm : s.mounted = true) (hnow : s.now ≤ t)
    (hp : s.pending = some ⟨d, q, g⟩) (hd : d ≤ t) :
    step s (.advanceTo t) =
      { s with
        now := t
        pending := none
        inflight := s.inflight ++ [⟨g, q⟩]
        fetchLog := s.fetchLog ++ [⟨g, q⟩] } := by
  simp only [step, Nat.not_lt.mpr hnow, if_false, hp, hd, if_true, hm]

/-- Helper: a non-initial query-effect run on a mounted hook clears any armed
debounce timeout, arms a fresh 400ms timeout over the new query, bumps the
query generation, and issues no fetch itself. -/
theorem effectRun_arm (s : HookState α) (q : String)
    (hm : s.mounted = true) (hd : s.initialRenderDone = true) :
    (step s (.effectRun q)).mounted = true ∧
    (step s (.effectRun q)).initialRenderDone = true ∧
    (step s (.effectRun q)).now = s.now ∧
    (step s (.effectRun q)).gen = s.gen + 1 ∧
    (step s (.effectRun q)).pending = some ⟨s.now + 400, q, s.gen + 1⟩ ∧
    (step s (.effectRun q)).fetchLog = s.fetchLog ∧
    (step s (.effectRun q)).inflight = s.inflight := by
  simp only [step, hm, hd, if_true]
  split <;> exact ⟨rfl, rfl, rfl, rfl, rfl, rfl, rfl⟩

/-- Helper: while every update of a sequence falls inside the previous
update's debounce window, no armed timeout ever fires: the hook ends with the
last update's query armed and not a single fetch issued. -/
theorem processUpdates_armed :
    ∀ (us : List (Nat × String)) (s : HookState α) (q : String),
      s.mounted = true → s.initialRenderDone = true →
      s.pending = some ⟨s.now + 400, q, s.gen⟩ →
      withinWindow s.now us = true →
      (processUpdates s us).mounted = true ∧
      (processUpdates s us).initialRenderDone = true ∧
      (processUpdates s us).now = (lastUpd (s.now, q) us).1 ∧
      (processUpdates s us).pending =
        some ⟨(processUpdates s us).now + 400, (lastUpd (s.now, q) us).2,
          (processUpdates s us).gen⟩ ∧
      (processUpdates s us).fetchLog = s.fetchLog := by
  intro us
  induction us with
  | nil =>
      intro s q hm hd hp _
      exact ⟨hm, hd, rfl, hp, rfl⟩
  | cons u rest ih =>
      intro s q hm hd hp hw
      obtain ⟨t, q2⟩ := u
      simp only [withinWindow, Bool.and_eq_true, decide_eq_true_eq] at hw
      obtain ⟨⟨h1, h2⟩, h3⟩ := hw
      have hadv : step s (.advanceTo t) = { s with now := t } :=
        advance_beforeDeadline s t (s.now + 400) q s.gen h1 hp h2
      have harm := effectRun_arm { s with now := t } q2 hm hd
      obtain ⟨hBm, hBd, hBnow, hBgen, hBp, hBlog, _hBin⟩ := harm
      have hstep : processUpdates s ((t, q2) :: rest) =
          processUpdates (step { s with now := t } (.effectRun q2)) rest := by
        simp only [processUpdates, List.foldl_cons, hadv]
      obtain ⟨hm2, hd2, hnow2, hp2, hlog2⟩ :=
        ih (step { s with now := t } (.effectRun q2)) q2
          hBm hBd (by rw [hBnow, hBgen]; exact hBp) (by rw [hBnow]; exact h3)
      refine ⟨?_, ?_, ?_, ?_, ?_⟩ <;>
        rw [hstep] <;>
        simp only [lastUpd, hBnow] at hnow2 hp2 hlog2 ⊢ <;>
        first
          | exact hm2
          | exact hd2
          | exact hnow2
          | exact hp2
          | rw [hlog2, hBlog]

/-- Claim C2: for every sequence of query-prop updates that all fall within
one 400ms debounce window of each other, starting from a mounted hook with no
armed timeout, processing the whole sequence and then letting the final 400ms
window elapse issues exactly one network request, and it carries the last
query of the sequence. -/
theorem C2_debounce_thm (s : HookState α) (t1 : Nat) (q1 : String)
    (rest : List (Nat × String))
    (hm : s.mounted = true) (hd : s.initialRenderDone = true)
    (hp : s.pending = none) (ht : s.now ≤ t1)
    (hw : withinWindow t1 rest = true) :
    (step (processUpdates s ((t1, q1) :: rest))
        (.advanceTo ((lastUpd (t1, q1) rest).1 + 400))).fetchLog
      = s.fetchLog ++
          [⟨(processUpdates s ((t1, q1) :: rest)).gen, (lastUpd (t1, q1) rest).2⟩] := by
  have hadv : step s (.advanceTo t1) = { s with now := t1 } :=
    advance_noPending s t1 ht hp
  have harm := effectRun_arm { s with now := t1 } q1 hm hd
  obtain ⟨hBm, hBd, hBnow, hBgen, hBp, hBlog, _hBin⟩ := harm
  have hstep : processUpdates s ((t1, q1) :: rest) =
      processUpdates (step { s with now := t1 } (.effectRun q1)) rest := by
    simp only [processUpdates, List.foldl_cons, hadv]
  obtain ⟨hm2, _hd2, hnow2, hp2, hlog2⟩ :=
    processUpdates_armed rest (step { s with now := t1 } (.effectRun q1)) q1
      hBm hBd (by rw [hBnow, hBgen]; exact hBp) (by rw [hBnow]; exact hw)
  simp only [hBnow] at hnow2 hp2
  rw [hstep]
  have hfire := advance_fire (processUpdates (step { s with now := t1 } (.effectRun q1)) rest)
    ((lastUpd (t1, q1) rest).1 + 400) ((processUpdates _ rest).now + 400)
    (lastUpd (t1, q1) rest).2 (processUpdates _ rest).gen
    hm2 (by rw [hnow2]; exact Nat.le_add_right _ _)
    hp2 (by rw [hnow2])
  rw [hfire]
  simp only [hlog2, hBlog]

/-- Witness for C2: updates "a" at t=10, "ab" at t=20, "abc" at t=30 (all
within one 400ms window) starting right after mount; exactly one fetch is
issued (the query-generation-3 request) and it carries "abc". -/
theorem C2_debounce_witness :
    (step (processUpdates (step (mountState Nat) (.effectRun ""))
        [(10, "a"), (20, "ab"), (30, "abc")])
        (.advanceTo ((lastUpd (10, "a") [(20, "ab"), (30, "abc")]).1 + 400))).fetchLog
      = [⟨3, "abc"⟩] :=
  C2_debounce_thm (step (mountState Nat) (.effectRun "")) 10 "a" [(20, "ab"), (30, "abc")]
    rfl rfl rfl (by decide) (by decide)

end Autocomplete

namespace Modal

/-- A focusable DOM element (`button, a, input, textarea, select`) inside a
container, abstracted to the one attribute the modal manipulates. -/
structure Elem where
  tabindex : Option String
  deriving Repr, DecidableEq

/-- `toggleTabIndex` from the source: `on` removes the `tabindex` attribute of
every focusable element of the container, anything else sets it to `"-1"`. -/
def toggleTabIndex (type : String) (container : List Elem) : List Elem :=
  container.map fun element =>
    if type = "on" then { element with tabindex := none }
    else { element with tabindex := some "-1" }

/-- The state of one mounted `Modal` instance together with the parts of the
document it manipulates.  `rootEls` are the focusable elements of the
background root container (`#app` / `#__next` / ...), `modalEls` those of the
portal container `#id`.  `contentInDom` records whether the portal children
have been rendered into the container yet: on the very first run of the
`isOpen` effect the container is still empty (the portal renders only after
`forceUpdate`), so `toggleTabIndex` finds nothing there.  `initialRender` is
the `initialRender` ref and `deferredPending` an armed `setTimeout(.., 0)`
from the one-time deferred pass.  `listenerOn` / `frozen` record the Escape
listener and the scroll freeze. -/
structure MState where
  rootEls : List Elem
  modalEls : List Elem
  contentInDom : Bool
  initialRender : Bool
  deferredPending : Bool
  listenerOn : Bool
  frozen : Bool
  deriving Repr, DecidableEq

/-- One run of the `isOpen` effect, branch for branch from the source.  The
modal container's focusable elements are only touched when they are actually
in the DOM.  In the closed branch, when `initialRender` is still false, the
one-time deferred `setTimeout(.., 0)` pass is armed. -/
def modalEffect (isOpen : Bool) (s : MState) : MState :=
  if isOpen then
    { s with
      modalEls := if s.contentInDom then toggleTabIndex "on" s.modalEls else s.modalEls
      rootEls := toggleTabIndex "off" s.rootEls
      listenerOn := true
      frozen := true }
  else
    let s1 :=
      { s with
        modalEls := if s.contentInDom then toggleTabIndex "off" s.modalEls else s.modalEls
        rootEls := toggleTabIndex "on" s.rootEls
        listenerOn := false
        frozen := false }
    if s1.initialRender then s1
    else { s1 with initialRender := true, deferredPending := true }

/-- The deferred `setTimeout(.., 0)` pass: by the time it runs, the
`forceUpdate` rerender has put the portal children in the DOM, and it makes
them unfocusable. -/
def runDeferred (s : MState) : MState :=
  if s.deferredPending then
    { s with modalEls := toggleTabIndex "off" s.modalEls, deferredPending := false }
  else s

/-- The whole client lifetime of a mounted modal: the `isOpen` effect runs
once on mount with the initial `isOpen` value, the `forceUpdate` rerender
puts the portal content in the DOM, the armed deferred pass (if any) runs,
and then the effect runs once more for every later `isOpen` toggle. -/
def mountAndToggles (s : MState) (isOpen0 : Bool) (toggles : List Bool) : MState :=
  toggles.foldl (fun s v => modalEffect v s)
    (runDeferred { modalEffect isOpen0 s with contentInDom := true })

/-- An element is tab-reachable unless its `tabindex` attribute is `"-1"`. -/
def tabReachable (e : Elem) : Prop := e.tabindex ≠ some "-1"

/-- The final `isOpen` value of the toggle sequence `v :: toggles`. -/
def lastToggle (v : Bool) : List Bool → Bool
  | [] => v
  | w :: rest => lastToggle w rest

/-- Helper: every element that `toggleTabIndex` produced has the `tabindex`
dictated by the toggle direction. -/
theorem toggleTabIndex_mem (ty : String) (els : List Elem) :
    ∀ e ∈ toggleTabIndex ty els,
      e.tabindex = if ty = "on" then none else some "-1" := by
  intro e he
  simp only [toggleTabIndex, List.mem_map] at he
  obtain ⟨a, _, rfl⟩ := he
  by_cases h : ty = "on" <;> simp [h]

/-- Helper: one effect run rewrites the background container with
`toggleTabIndex`, turned off exactly when opening. -/
theorem modalEffect_rootEls (v : Bool) (s : MState) :
    (modalEffect v s).rootEls =
      toggleTabIndex (if v then "off" else "on") s.rootEls := by
  cases v
  · simp only [modalEffect, Bool.false_eq_true, if_false]
    split <;> rfl
  · rfl

/-- Helper: one effect run leaves every background element's `tabindex`
determined by the `isOpen` value it ran with. -/
theorem modalEffect_root (v : Bool) (s : MState) :
    ∀ e ∈ (modalEffect v s).rootEls,
      e.tabindex = if v then some "-1" else none := by
  intro e he
  rw [modalEffect_rootEls] at he
  have h := toggleTabIndex_mem _ _ e he
  cases v <;> simpa using h

/-- Helper: the deferred pass does not touch the background container. -/
theorem runDeferred_root (s : MState) : (runDeferred s).rootEls = s.rootEls := by
  unfold runDeferred
  split <;> rfl

/-- Helper: after any further toggles, the background elements' `tabindex` is
the one set by the last toggle. -/
theorem runToggles_root (toggles : List Bool) :
    ∀ (s : MState) (v : Bool),
      (∀ e ∈ s.rootEls, e.tabindex = if v then some "-1" else none) →
      ∀ e ∈ (toggles.foldl (fun s w => modalEffect w s) s).rootEls,
        e.tabindex = if lastToggle v toggles then some "-1" else none := by
  induction toggles with
  | nil => intro s v hbase e he; exact hbase e he
  | cons w rest ih =>
      intro s v hbase e he
      exact ih (modalEffect w s) w (modalEffect_root w s) e he

/-- Helper: the first effect run in the mounted-before-first-open scenario
leaves the (not yet rendered) modal content untouched and arms the one-time
deferred pass. -/
theorem modalEffect_closed_first (s : MState)
    (hir : s.initialRender = false) (hcd : s.contentInDom = false) :
    (modalEffect false s).modalEls = s.modalEls ∧
      (modalEffect false s).deferredPending = true := by
  simp [modalEffect, hcd, hir]

/-- Claim C4: for every initial document state and every sequence of
open/close toggles of a mounted modal (the mount effect run included), the
final tab-reachability of every focusable element of the background root
container matches the final `isOpen` value exactly: it carries
`tabindex="-1"` exactly when the modal ends open.  Moreover, in the
mounted-before-first-open case (`isOpen` false on mount, content rendered
after the effect), the one-time deferred pass still ends with every modal
content element unfocusable. -/
theorem C4_tabindex_thm (s : MState) (isOpen0 : Bool) (toggles : List Bool) :
    (∀ e ∈ (mountAndToggles s isOpen0 toggles).rootEls,
      (e.tabindex = some "-1" ↔ lastToggle isOpen0 toggles = true) ∧
      (tabReachable e ↔ lastToggle isOpen0 toggles = false)) ∧
    (s.initialRender = false → s.contentInDom = false →
      ∀ e ∈ (mountAndToggles s false []).modalEls, e.tabindex = some "-1") := by
  constructor
  · intro e he
    have hbase : ∀ e ∈ (runDeferred
          { modalEffect isOpen0 s with contentInDom := true }).rootEls,
        e.tabindex = if isOpen0 then some "-1" else none := by
      rw [runDeferred_root]
      intro e he
      exact modalEffect_root isOpen0 s e he
    have hfin := runToggles_root toggles _ isOpen0 hbase e he
    cases h : lastToggle isOpen0 toggles <;>
      simp only [h, Bool.false_eq_true, if_false, if_true] at hfin <;>
      simp [hfin, tabReachable]
  · intro hir hcd e he
    obtain ⟨hEls, hDp⟩ := modalEffect_closed_first s hir hcd
    simp only [mountAndToggles, List.foldl_nil] at he
    unfold runDeferred at he
    rw [if_pos (show ({ modalEffect false s with contentInDom := true } : MState
        ).deferredPending = true from hDp)] at he
    have h := toggleTabIndex_mem "off" _ e he
    simpa using h

/-- Witness for C4: one concrete document, mounted closed, then opened and
closed again: the final background element (which computes to `⟨none⟩`) ends
tab-reachable, matching the final closed state; and in the deferred-pass
scenario the final modal element (which computes to `⟨some "-1"⟩`) ends
unfocusable. -/
theorem C4_tabindex_witness :
    (((⟨none⟩ : Elem).tabindex = some "-1") ↔ lastToggle false [true, false] = true) ∧
    (tabReachable (⟨none⟩ : Elem) ↔ lastToggle false [true, false] = false) ∧
    (⟨some "-1"⟩ : Elem).tabindex = some "-1" := by
  have h := C4_tabindex_thm
    ⟨[⟨none⟩], [⟨none⟩], false, false, false, false, false⟩ false [true, false]
  have h0 := C4_tabindex_thm
    ⟨[⟨none⟩], [⟨none⟩], false, false, false, false, false⟩ false []
  have hmem : (⟨none⟩ : Elem) ∈ (mountAndToggles
      ⟨[⟨none⟩], [⟨none⟩], false, false, false, false, false⟩ false [true, false]).rootEls := by
    decide
  have hmem2 : (⟨some "-1"⟩ : Elem) ∈ (mountAndToggles
      ⟨[⟨none⟩], [⟨none⟩], false, false, false, false, false⟩ false []).modalEls := by
    decide
  exact ⟨(h.1 _ hmem).1, (h.1 _ hmem).2, h0.2 rfl rfl _ hmem2⟩

/-- The browser document state touched by `capturePosition`'s `freeze` /
`unfreeze` closures: the window's vertical scroll offset and the inline style
the freeze puts on `document.body` (`some t` models
`position: fixed; top: t px; width: 100%`). -/
structure Doc where
  pageYOffset : Int
  bodyFixedTop : Option Int
  deriving Repr, DecidableEq

/-- `capturePosition` reads `window.pageYOffset` at the render in which it is
called and closes over it as `cachedPosition`. -/
def capturePosition (doc : Doc) : Int := doc.pageYOffset

/-- The closure's `freeze`: `document.body.style = position: fixed;
top: cachedPosition * -1 px; width: 100%`.  Taking the body out of the normal
flow collapses the document's scrollable height, so the window scroll offset
becomes 0 — which is exactly why the style encodes `-cachedPosition` and why
`unfreeze` must scroll back. -/
def freeze (cachedPosition : Int) (doc : Doc) : Doc :=
  { doc with bodyFixedTop := some (cachedPosition * -1), pageYOffset := 0 }

/-- The closure's `unfreeze`: `document.body.removeAttribute(style)` followed
by `window.scrollTo(\x7b top: cachedPosition \x7d)`. -/
def unfreeze (cachedPosition : Int) (doc : Doc) : Doc :=
  { doc with bodyFixedTop := none, pageYOffset := cachedPosition }

/-- What one render of the `Modal` component closes over: the `isOpen` prop of
that render and the `cachedPosition` captured by the `capturePosition()` call
in the component body during that render. -/
structure RenderClosure where
  isOpen : Bool
  cachedPosition : Int
  deriving Repr, DecidableEq

/-- One `isOpen` prop change, with React's ordering: (1) the component
rerenders, running `capturePosition()` with the current `pageYOffset`;
(2) the previous effect's cleanup runs, closing over the previous render's
values (`if (isOpen) \x7b ...; unfreeze() \x7d`); (3) the new effect body runs
(`freeze()` when opening, `unfreeze()` when closing). -/
def toggleStep (doc : Doc) (prev : RenderClosure) (v : Bool) : Doc × RenderClosure :=
  let next : RenderClosure := ⟨v, capturePosition doc⟩
  let doc1 := if prev.isOpen then unfreeze prev.cachedPosition doc else doc
  let doc2 := if v then freeze next.cachedPosition doc1 else unfreeze next.cachedPosition doc1
  (doc2, next)

/-- Mounting the modal: the first render captures its closure and the effect
runs with no previous cleanup. -/
def mountModal (doc : Doc) (isOpen0 : Bool) : Doc × RenderClosure :=
  let c : RenderClosure := ⟨isOpen0, capturePosition doc⟩
  (if isOpen0 then freeze c.cachedPosition doc else unfreeze c.cachedPosition doc, c)

/-- The document after mounting the modal closed at scroll offset `p` and then
opening it. -/
def afterOpen (p : Int) : Doc × RenderClosure :=
  let m := mountModal ⟨p, none⟩ false
  toggleStep m.1 m.2 true

/-- The document after a full open-then-close cycle starting at scroll offset
`p`. -/
def afterOpenClose (p : Int) : Doc :=
  let o := afterOpen p
  (toggleStep o.1 o.2 false).1

/-- Claim C5 (code_bug): opening at scroll offset 300 does freeze the body
with the prior offset preserved in the style (`top: -300px`), but closing
does NOT restore the document scroll position to 300: the closing render
calls `capturePosition()` again while the body is still frozen (offset 0), so
its `unfreeze` — which runs after the open render's cleanup — scrolls the
document to 0. -/
theorem C5_freeze_restore_code_bug :
    (afterOpen 300).1 = ⟨0, some (-300)⟩ ∧
      afterOpenClose 300 = ⟨0, none⟩ ∧
      ((0 : Int) ≠ 300) := by
  refine ⟨rfl, rfl, by simp⟩

end Modal

namespace ScrollAnim

/-- The values `scroll` closes over when called: the optional duration
(default 500) and easing function (default `t * t * t * t`), the target
element's `getBoundingClientRect().top`, the optional `offset` (default 0),
and `window.pageYOffset` at call time.  Times and pixel values are modelled
as rationals. -/
structure ScrollParams where
  duration : ℚ
  easingFn : ℚ → ℚ
  targetTop : ℚ
  offset : ℚ
  pageYOffset : ℚ

/-- `cachePosition = target.top + offset + window.pageYOffset`: the target's
position relative to the top of the document, cached when `scroll` is
called. -/
def cachePosition (p : ScrollParams) : ℚ := p.targetTop + p.offset + p.pageYOffset

/-- The translate one `animate()` frame applies while `elapsed < duration`:
`ease = easingFn(elapsed / duration)`; if `ease > 1` the frame snaps to
`cachePosition * -1` to prevent overshooting, otherwise it applies
`ease * (target.top + offset) * -1`. -/
def translateAt (p : ScrollParams) (elapsed : ℚ) : ℚ :=
  let ease := p.easingFn (elapsed / p.duration)
  if ease > 1 then cachePosition p * -1 else ease * (p.targetTop + p.offset) * -1

/-- The animation's observable state: the inline `translateY` transform on the
base element (`none`: no inline transform), the scroll jump performed on
completion, whether the callback ran, and whether the frame loop has stopped
(completion's `cancelAnimationFrame`, or frames simply no longer being
scheduled). -/
structure AnimState where
  transform : Option ℚ
  scrolledTo : Option ℚ
  callbackRun : Bool
  stopped : Bool
  deriving Repr, DecidableEq

/-- Before the first frame: no inline transform on the base element. -/
def animInit : AnimState := ⟨none, none, false, false⟩

/-- One `animate()` call at a given elapsed time.  Within the duration it
applies the frame's translate and schedules the next frame; past the duration
it cancels the frame loop, resets the transform to `translateY(0px)`, jumps
the real scroll position to `cachePosition` and invokes the callback. -/
def frame (p : ScrollParams) (elapsed : ℚ) (s : AnimState) : AnimState :=
  if s.stopped then s
  else if elapsed < p.duration then
    { s with transform := some (translateAt p elapsed) }
  else
    { s with
      transform := some 0
      scrolledTo := some (cachePosition p)
      callbackRun := true
      stopped := true }

/-- Stopping the frame loop from outside before completion (what a consumer
would have to do on unmount): no further frames run.  Nothing else happens —
`scroll` exposes no handle that could also clean up the transform. -/
def cancel (s : AnimState) : AnimState := { s with stopped := true }

/-- Claim C6: on every animation frame with `elapsed < duration`, the easing
function is evaluated at `elapsed / duration`, which lies in `[0, 1]`; when
the easing value exceeds 1 the applied translate snaps exactly to the final
target position `cachePosition * -1` (the position the completion scroll
jump goes to — no overshoot), and otherwise the translate is the easing value
times the target offset, negated. -/
theorem C6_animate_thm (p : ScrollParams) (elapsed : ℚ)
    (h0 : 0 ≤ elapsed) (h1 : elapsed < p.duration) :
    (0 ≤ elapsed / p.duration ∧ elapsed / p.duration ≤ 1) ∧
    (p.easingFn (elapsed / p.duration) > 1 →
      translateAt p elapsed = cachePosition p * -1) ∧
    (¬ p.easingFn (elapsed / p.duration) > 1 →
      translateAt p elapsed = p.easingFn (elapsed / p.duration) * (p.targetTop + p.offset) * -1) := by
  have hd : 0 < p.duration := lt_of_le_of_lt h0 h1
  refine ⟨⟨div_nonneg h0 hd.le, (div_le_one hd).mpr h1.le⟩, ?_, ?_⟩
  · intro hgt
    simp only [translateAt, if_pos hgt]
  · intro hle
    simp only [translateAt, if_neg hle]

/-- Witness for C6 at duration 500, elapsed 100, with an easing function that
overshoots (constantly 2): the elapsed fraction lies in the unit interval and
the frame snaps to the final position. -/
theorem C6_animate_witness :
    ((0 : ℚ) ≤ 100 / 500 ∧ (100 : ℚ) / 500 ≤ 1) ∧
    translateAt ⟨500, fun _ => 2, 120, -20, 40⟩ 100 =
      cachePosition ⟨500, fun _ => 2, 120, -20, 40⟩ * -1 := by
  have h := C6_animate_thm ⟨500, fun _ => 2, 120, -20, 40⟩ 100 (by norm_num) (by norm_num)
  exact ⟨h.1, h.2.1 (by norm_num)⟩

/-- Claim C7, counterexample.  The claim asserts that cancelling the animator
before completion leaves no residual transform on the base element.  Running
one frame at elapsed 100 of a 500ms animation (easing `t^4`, target offset
100) applies `translateY(-4/25 px)`; stopping the loop there leaves that
transform in place: the base element still carries a non-null, non-zero
inline transform. -/
theorem C7_claim_counterexample :
    (cancel (frame ⟨500, fun t => t * t * t * t, 100, 0, 0⟩ 100 animInit)).transform
        = some (-4 / 25) ∧
      (some ((-4 : ℚ) / 25) ≠ none) ∧
      (some ((-4 : ℚ) / 25) ≠ some 0) := by
  refine ⟨?_, by simp, by norm_num⟩
  norm_num [cancel, frame, animInit, translateAt, cachePosition]

/-- Claim C7 (amended): `scroll` exposes no cancellation handle (the rAF id is
local to the closure and `scroll` returns nothing); stopping the frame loop
before completion leaves the last frame's translate applied to the base
element — cancellation itself never modifies the transform, which is reset to
`translateY(0px)` only by the completion branch. -/
theorem C7_amended_thm (p : ScrollParams) (s : AnimState) (elapsed : ℚ)
    (hrun : s.stopped = false) (hlt : elapsed < p.duration) :
    (cancel (frame p elapsed s)).transform = some (translateAt p elapsed) ∧
    (∀ s2 : AnimState, (cancel s2).transform = s2.transform) := by
  constructor
  · simp only [cancel, frame, hrun, Bool.false_eq_true, if_false, if_pos hlt]
  · intro s2
    rfl

/-- Witness for C7 (amended) at the same concrete animation, with the
cancellation-preserves-transform part evaluated at one concrete state. -/
theorem C7_amended_witness :
    (cancel (frame ⟨500, fun t => t * t * t * t, 100, 0, 0⟩ 100 animInit)).transform
        = some (translateAt ⟨500, fun t => t * t * t * t, 100, 0, 0⟩ 100) ∧
      (cancel ⟨some 5, none, false, false⟩).transform = some 5 := by
  have h := C7_amended_thm ⟨500, fun t => t * t * t * t, 100, 0, 0⟩ animInit 100 rfl
    (by norm_num)
  exact ⟨h.1, h.2 ⟨some 5, none, false, false⟩⟩

end ScrollAnim

namespace Seo

/-- The site metadata the component's static query returns
(`site.siteMetadata` with `title`, `description`, `author`). -/
structure SiteMetadata where
  title : String
  description : String
  author : String
  deriving Repr, DecidableEq

/-- One entry of the `meta` array passed to the head manager: a `name` or
`property` key and a `content` value (`content` is optional because the
source passes the raw optional `title` prop as the content of `og:title`
and `twitter:title`). -/
structure MetaEntry where
  name : Option String
  property : Option String
  content : Option String
  deriving Repr, DecidableEq

/-- `SEOProps`: `title`, `description` optional; `lang` defaults to "en",
`meta` to `[]`, `keywords` to `[]`. -/
structure SEOProps where
  title : Option String
  description : Option String
  lang : String
  meta : List MetaEntry
  keywords : List String
  deriving Repr, DecidableEq

/-- JavaScript `a || b` for an optional string `a`: the empty string is
falsy, so it falls through to `b`. -/
def jsOrString (a : Option String) (b : String) : String :=
  match a with
  | some s => if s = "" then b else s
  | none => b

/-- What the component hands to the head manager: the `html` lang attribute,
the document title (`titleTemplate` is the identity `%s`), and the meta
array. -/
structure HelmetOutput where
  htmlLang : String
  title : String
  metaTags : List MetaEntry
  deriving Repr, DecidableEq

/-- The `SEO` component, field for field from the source:
`metaTitle = title || data.site.siteMetadata.title`,
`metaDescription = description || data.site.siteMetadata.description`, the
nine fixed meta entries, then `.concat(...)` of the keywords entry when
`keywords.length > 0`, then `.concat(meta)`. -/
def SEO (props : SEOProps) (data : SiteMetadata) : HelmetOutput :=
  let metaTitle := jsOrString props.title data.title
  let metaDescription := jsOrString props.description data.description
  { htmlLang := props.lang
    title := metaTitle
    metaTags :=
      ([ ⟨some "google-site-verification", none,
            some "joDHdTdb56PSG3inAa0NTavlVPlKpbJSIZM0OfTfImI"⟩,
         ⟨some "description", none, some metaDescription⟩,
         ⟨none, some "og:title", props.title⟩,
         ⟨none, some "og:description", some metaDescription⟩,
         ⟨none, some "og:type", some "website"⟩,
         ⟨some "twitter:card", none, some "summary"⟩,
         ⟨some "twitter:creator", none, some data.author⟩,
         ⟨some "twitter:title", none, props.title⟩,
         ⟨some "twitter:description", none, some metaDescription⟩ ]
        ++ (if props.keywords.length > 0 then
              [⟨some "keywords", none, some (String.intercalate ", " props.keywords)⟩]
            else []))
        ++ props.meta }

/-- Claim C10: the rendered document title equals the `title` prop when a
non-empty one is provided and otherwise falls back to the site metadata
title; likewise for the description meta tag; and — as long as the
caller-supplied extra `meta` array does not itself inject a `keywords`
entry — a keywords meta entry is included if and only if the `keywords`
array is non-empty, and any keywords entry's content is the keywords joined
by ", ". -/
theorem C10_seo_thm (props : SEOProps) (data : SiteMetadata) :
    (∀ t, props.title = some t → t ≠ "" → (SEO props data).title = t) ∧
    (props.title = none → (SEO props data).title = data.title) ∧
    (∀ d, props.description = some d → d ≠ "" →
      (⟨some "description", none, some d⟩ : MetaEntry) ∈ (SEO props data).metaTags) ∧
    (props.description = none →
      (⟨some "description", none, some data.description⟩ : MetaEntry)
        ∈ (SEO props data).metaTags) ∧
    ((∀ e ∈ props.meta, e.name ≠ some "keywords") →
      ((∃ e ∈ (SEO props data).metaTags, e.name = some "keywords") ↔
        props.keywords ≠ []) ∧
      (∀ e ∈ (SEO props data).metaTags, e.name = some "keywords" →
        e.content = some (String.intercalate ", " props.keywords))) := by
  refine ⟨?_, ?_, ?_, ?_, ?_⟩
  · intro t ht hne
    simp [SEO, jsOrString, ht, hne]
  · intro ht
    simp [SEO, jsOrString, ht]
  · intro d hd hne
    simp [SEO, jsOrString, hd, hne]
  · intro hd
    simp [SEO, jsOrString, hd]
  · intro hmeta
    constructor
    · constructor
      · rintro ⟨e, he, hename⟩
        intro hkw
        simp only [SEO, hkw, List.length_nil, gt_iff_lt, Nat.lt_irrefl, if_false,
          List.append_nil, List.mem_append, List.mem_cons, List.not_mem_nil,
          or_false] at he
        rcases he with he | he
        · rcases he with rfl | rfl | rfl | rfl | rfl | rfl | rfl | rfl | rfl <;>
            simp at hename
        · exact hmeta e he hename
      · intro hkw
        refine ⟨⟨some "keywords", none, some (String.intercalate ", " props.keywords)⟩,
          ?_, rfl⟩
        have hlen : props.keywords.length > 0 := List.length_pos.mpr hkw
        simp [SEO, hlen]
    · intro e he hename
      simp only [SEO, List.mem_append, List.mem_cons, List.not_mem_nil, or_false] at he
      rcases he with he | he
      · rcases he with he | he
        · rcases he with rfl | rfl | rfl | rfl | rfl | rfl | rfl | rfl | rfl <;>
            simp at hename
        · revert he
          split
          · intro he
            simp only [List.mem_cons, List.not_mem_nil, or_false] at he
            subst he
            rfl
          · intro he
            simp at he
      · exact absurd hename (hmeta e he)

/-- Witness for C10: a render with a non-empty title and description and two
keywords, and a render with no props at all (falling back to the site
metadata); the content of the concrete keywords entry is the keywords joined
by ", ". -/
theorem C10_seo_witness :
    (SEO ⟨some "T", some "D", "en", [], ["a", "b"]⟩ ⟨"ST", "SD", "AU"⟩).title = "T" ∧
    (SEO ⟨none, none, "en", [], []⟩ ⟨"ST", "SD", "AU"⟩).title = "ST" ∧
    (⟨some "description", none, some "D"⟩ : MetaEntry)
      ∈ (SEO ⟨some "T", some "D", "en", [], ["a", "b"]⟩ ⟨"ST", "SD", "AU"⟩).metaTags ∧
    (⟨some "keywords", none, some (String.intercalate ", " ["a", "b"])⟩
        : MetaEntry).content = some (String.intercalate ", " ["a", "b"]) := by
  have h1 := C10_seo_thm ⟨some "T", some "D", "en", [], ["a", "b"]⟩ ⟨"ST", "SD", "AU"⟩
  have h2 := C10_seo_thm ⟨none, none, "en", [], []⟩ ⟨"ST", "SD", "AU"⟩
  have hm : ∀ e ∈ ([] : List MetaEntry), e.name ≠ some "keywords" := by simp
  refine ⟨h1.1 "T" rfl (by decide), h2.2.1 rfl, h1.2.2.1 "D" rfl (by decide),
    (h1.2.2.2.2 hm).2
      ⟨some "keywords", none, some (String.intercalate ", " ["a", "b"])⟩
      (by decide) rfl⟩

end Seo
